import Mathlib

/-!
Shallow embedding of the page-parsing and persistence pipeline of the
language-learning-method repository.

The embedding covers:
* the SQLite-backed persistence layer of src/service/persitence_service.py
  (tables parsed_pages / exercises / exercise_questions / books and the
  operations store_parsed_page, is_page_parsed, get_parsed_page,
  store_exercise, get_exercises, get_book, delete_book_and_connected_data);
* the OCR extraction client of src/service/text_extraction_service.py
  (_upload_file, _request_file, _get_result, _process_single_file and the
  request payloads they build);
* the parsing orchestrator PDFParser.parse_pdf of src/service/pdf_parser.py.

Modelling conventions: timestamps (datetime.now, isoformat round trips) are
abstract natural numbers; the HTTP transport is an explicit input value
(either a transport exception or a status code plus decoded JSON body);
SQL tables are Lean lists of row structures, kept in insertion order exactly
as SQLite keeps rows, with SELECT ... fetchone modelled by List.find? and
COUNT(*) by List.countP; the unbounded polling loop of _get_result consumes
an explicit list of poll responses, with the outer Option recording whether
the loop returned at all within that list.
-/

namespace LangLearn

/-- Python truthiness of an optional string: a value used in an if condition
is true iff it is neither None nor the empty string. -/
def pyTruthy : Option String → Bool
  | none => false
  | some s => s != ""

/-! ## Data model: rows of the four SQLite tables (persitence_service._init_db) -/

/-- A row of the parsed_pages table; also the ParsedPage dataclass.
The table declares UNIQUE(book_path, page_number). -/
structure ParsedPage where
  book_path : String
  page_number : Nat
  content : String
  parsed_at : Nat
  extraction_task_id : Option String
deriving Repr, DecidableEq

/-- A row of the exercises table (id INTEGER PRIMARY KEY AUTOINCREMENT). -/
structure ExerciseRow where
  id : Nat
  book_path : String
  page_number : Nat
  title : String
  instructions : String
  extracted_at : Nat
deriving Repr, DecidableEq

/-- A row of the exercise_questions table: an ordered child of an exercise,
tagged with its position via question_order. -/
structure QuestionRow where
  id : Nat
  exercise_id : Nat
  question : String
  question_order : Nat
deriving Repr, DecidableEq

/-- A row of the books table. book_content_base64 holds the hex encoding the
code produces in add_book; its contents are opaque to every claim. -/
structure BookRow where
  id : Nat
  name : String
  book_content_base64 : String
  date_added : Nat
deriving Repr, DecidableEq

/-- The persistent database state: the four tables in row insertion order,
plus the next AUTOINCREMENT ids. -/
structure DB where
  parsed_pages : List ParsedPage
  exercises : List ExerciseRow
  exercise_questions : List QuestionRow
  books : List BookRow
  next_exercise_id : Nat
  next_question_id : Nat
  next_book_id : Nat
deriving Repr, DecidableEq

/-- The freshly initialised database (_init_db): four empty tables; SQLite
AUTOINCREMENT assigns ids from 1. -/
def init_db : DB := ⟨[], [], [], [], 1, 1, 1⟩

/-- The WHERE clause `book_path = ? AND page_number = ?` used by the
parsed_pages operations. -/
def pageKeyMatch (book_path : String) (page_number : Nat) (r : ParsedPage) : Bool :=
  r.book_path == book_path && r.page_number == page_number

/-- PersistenceService.store_parsed_page: INSERT OR REPLACE INTO parsed_pages
keyed by (book_path, page_number). SQLite deletes every row violating the
UNIQUE constraint and appends the new row; the surrounding try/except turns
an sqlite3.Error into a False return, so the call itself never raises. In
this model no engine error occurs and the function returns True. -/
def store_parsed_page (db : DB) (parsed_page : ParsedPage) : DB × Bool :=
  let kept := db.parsed_pages.filter
    (fun r => !(pageKeyMatch parsed_page.book_path parsed_page.page_number r))
  ({ db with parsed_pages := kept ++ [parsed_page] }, true)

/-- PersistenceService.is_page_parsed: SELECT COUNT(*) FROM parsed_pages
WHERE book_path = ? AND page_number = ?, compared with 0. -/
def is_page_parsed (db : DB) (book_name : String) (page_number : Nat) : Bool :=
  db.parsed_pages.countP (pageKeyMatch book_name page_number) > 0

/-- PersistenceService.get_parsed_page: SELECT ... WHERE book_path = ? AND
page_number = ? followed by fetchone, i.e. the first matching row. -/
def get_parsed_page (db : DB) (book_name : String) (page_number : Nat) :
    Option ParsedPage :=
  db.parsed_pages.find? (pageKeyMatch book_name page_number)

/-- The StoredExercise dataclass: an exercise together with its ordered
question strings. -/
structure StoredExercise where
  id : Option Nat
  book_path : String
  page_number : Nat
  title : String
  instructions : String
  questions : List String
  extracted_at : Nat
deriving Repr, DecidableEq

/-- The question-insertion loop of store_exercise:
`for i, question in enumerate(exercise.questions)` inserts one
exercise_questions row per question, tagged with its 0-based index i as
question_order. Row ids continue the AUTOINCREMENT sequence. -/
def question_rows (exercise_id : Nat) (next_qid : Nat) :
    Nat → List String → List QuestionRow
  | _, [] => []
  | i, q :: qs =>
    ⟨next_qid + i, exercise_id, q, i⟩ :: question_rows exercise_id next_qid (i + 1) qs

/-- PersistenceService.store_exercise: inside one connection scope, INSERT the
exercise row, read cursor.lastrowid as the assigned exercise id, INSERT each
question row with its 0-based question_order, commit, and return the id. -/
def store_exercise (db : DB) (exercise : StoredExercise) : DB × Nat :=
  let exercise_id := db.next_exercise_id
  let exRow : ExerciseRow :=
    ⟨exercise_id, exercise.book_path, exercise.page_number, exercise.title,
      exercise.instructions, exercise.extracted_at⟩
  let qRows := question_rows exercise_id db.next_question_id 0 exercise.questions
  ({ db with
      exercises := db.exercises ++ [exRow],
      exercise_questions := db.exercise_questions ++ qRows,
      next_exercise_id := exercise_id + 1,
      next_question_id := db.next_question_id + exercise.questions.length },
   exercise_id)

/-- Return value and raising behaviour of store_exercise as a function of the
row id the cursor reports after the exercise INSERT. The Python DB-API types
cursor.lastrowid as an optional integer. -/
inductive StoreExerciseOutcome where
  | returned (id : Option Nat)
  | raisedPersistenceError (msg : String)
deriving Repr, DecidableEq

/-- Whether the outcome is a raised error rather than a normal return. -/
def StoreExerciseOutcome.isRaised : StoreExerciseOutcome → Bool
  | .returned _ => false
  | .raisedPersistenceError _ => true

/-- Lines 205-219 of persitence_service.py as a function of the reported
lastrowid: the code binds `exercise_id = cursor.lastrowid`, inserts the
question rows, commits, and executes `return exercise_id`. It contains no
branch on the reported id and no raise statement of any kind (and the
repository defines no PersistenceError), so the outcome is always a normal
return of exactly the reported id. -/
def store_exercise_outcome (lastrowid : Option Nat) : StoreExerciseOutcome :=
  .returned lastrowid

/-- The WHERE clause of get_exercises: book_path = ? plus the optional
AND page_number = ?. -/
def exercise_filter (book_path : String) (page_number : Option Nat)
    (e : ExerciseRow) : Bool :=
  e.book_path == book_path &&
    (match page_number with
     | none => true
     | some p => e.page_number == p)

/-- The per-exercise question query of get_exercises: SELECT question FROM
exercise_questions WHERE exercise_id = ? ORDER BY question_order. The ORDER BY
re-sorts the matching rows by the stored index, independently of row order. -/
def questions_for (db : DB) (exercise_id : Nat) : List String :=
  (List.insertionSort (fun q1 q2 : QuestionRow => q1.question_order ≤ q2.question_order)
      (db.exercise_questions.filter (fun q => q.exercise_id == exercise_id))).map
    (fun q => q.question)

/-- PersistenceService.get_exercises: select the exercise rows for the book
(optionally one page), then reconstruct each with its ordered questions. -/
def get_exercises (db : DB) (book_path : String) (page_number : Option Nat) :
    List StoredExercise :=
  (db.exercises.filter (exercise_filter book_path page_number)).map
    (fun e =>
      ⟨some e.id, e.book_path, e.page_number, e.title, e.instructions,
        questions_for db e.id, e.extracted_at⟩)

/-- PersistenceService.get_book: SELECT ... FROM books WHERE name = ? with
fetchone, i.e. the first row with that name (returned here as the raw row;
the hex decoding of the content column is irrelevant to every claim). -/
def get_book (db : DB) (book_name : String) : Option BookRow :=
  db.books.find? (fun b => b.name == book_name)

/-- PersistenceService.delete_book_and_connected_data: DELETE FROM books
WHERE name = ?, then DELETE FROM parsed_pages WHERE book_path = ?, in one
connection scope. The exercises and exercise_questions tables are not
touched. -/
def delete_book_and_connected_data (db : DB) (book_name : String) : DB :=
  { db with
      books := db.books.filter (fun b => !(b.name == book_name)),
      parsed_pages := db.parsed_pages.filter (fun r => !(r.book_path == book_name)) }

/-! ## Extraction client (text_extraction_service.py) -/

/-- The ExtractionResult dataclass: file path, optional extracted text,
optional error string, optional task id (the last three default to None). -/
structure ExtractionResult where
  file_path : String
  extracted_text : Option String
  error : Option String
  task_id : Option String
deriving Repr, DecidableEq

/-- The decoded JSON body of a successful upload or request response: the
fields read via result.get, each possibly absent. -/
structure OcrResponse where
  text : Option String
  task_id : Option String
deriving Repr, DecidableEq

/-- Outcome of one HTTP POST: either a transport exception raised by the
requests call, or a response with a status code and decoded body. -/
inductive HttpResult where
  | exn (msg : String)
  | resp (status_code : Nat) (body : OcrResponse)
deriving Repr, DecidableEq

/-- The decoded JSON body of one GET on the result endpoint, together with
its status code: the state field and (for SUCCESS) the result field. -/
structure PollResponse where
  status_code : Nat
  state : String
  result : String
deriving Repr, DecidableEq

/-- The external world one _process_single_file call interacts with: the
outcome of the upload POST, the outcome of the fallback request POST, the
successive poll responses, and the content of the prompt file (None models
FileNotFoundError). -/
structure World where
  upload : HttpResult
  request : HttpResult
  polls : List PollResponse
  prompt_file_content : Option String
deriving Repr, DecidableEq

/-- TextExtractionService._upload_file: POST the multipart form; return the
decoded body on status 200, None on any other status, and None on any
exception (the try/except swallows it). -/
def upload_file (r : HttpResult) : Option OcrResponse :=
  match r with
  | .exn _ => none
  | .resp status_code body => if status_code == 200 then some body else none

/-- TextExtractionService._request_file: POST the base64 JSON payload; same
return discipline as _upload_file. -/
def request_file (r : HttpResult) : Option OcrResponse :=
  match r with
  | .exn _ => none
  | .resp status_code body => if status_code == 200 then some body else none

/-- TextExtractionService._get_result: the polling loop. Each iteration GETs
the result endpoint; a non-200 status returns None; state SUCCESS returns the
result field; state FAILURE logs the failure info and returns None; any other
state sleeps and polls again. The argument list supplies the successive
responses; the outer Option is none when the loop is still running after
consuming all of them (the code has no timeout). -/
def get_result : List PollResponse → Option (Option String)
  | [] => none
  | r :: rest =>
    if r.status_code != 200 then some none
    else if r.state == "SUCCESS" then some (some r.result)
    else if r.state == "FAILURE" then some none
    else get_result rest

/-- What one _process_single_file call did: its return value (outer none when
the polling loop never terminates, inner none when the Python function falls
off the end and returns None), and how many times it invoked _upload_file and
_request_file. -/
structure ProcOutcome where
  ret : Option (Option ExtractionResult)
  upload_calls : Nat
  request_calls : Nat
deriving Repr, DecidableEq

/-- The body of _process_single_file after the prompt has been resolved:
try the upload, fall back to the request path when it returned None, report
a hard error when both returned None, short-circuit on a truthy text field,
poll when a truthy task_id is present, and otherwise fall off the end. -/
def process_after_prompt (w : World) (file_path : String)
    (storage_filename : Option String) : ProcOutcome :=
  let uploadRes := upload_file w.upload
  let stage :=
    match uploadRes with
    | none => (request_file w.request, 1)
    | some r => (some r, 0)
  match stage.1 with
  | none =>
    ⟨some (some ⟨file_path, none,
       some "Failed to process file using both upload and request methods", none⟩),
      1, stage.2⟩
  | some res =>
    if pyTruthy res.text then
      ⟨some (some ⟨file_path, res.text, none, none⟩), 1, stage.2⟩
    else if pyTruthy res.task_id then
      match get_result w.polls with
      | none => ⟨none, 1, stage.2⟩
      | some text_result =>
        ⟨some (some ⟨file_path, text_result, none, res.task_id⟩), 1, stage.2⟩
    else
      ⟨some none, 1, stage.2⟩

/-- TextExtractionService._process_single_file: when a truthy prompt_file is
given, replace the prompt with the file content, returning an error result if
the file is missing; then run the upload / request / poll protocol. The
storage_filename and resolved prompt only shape the outgoing payloads, which
are modelled separately below. -/
def process_single_file (w : World) (file_path : String) (prompt : Option String)
    (prompt_file : Option String) (storage_filename : Option String) : ProcOutcome :=
  if pyTruthy prompt_file then
    match w.prompt_file_content with
    | none =>
      ⟨some (some ⟨file_path, none,
         some ("Prompt file not found: " ++ prompt_file.getD ""), none⟩), 0, 0⟩
    | some _ => process_after_prompt w file_path storage_filename
  else
    process_after_prompt w file_path storage_filename

/-- The constructor configuration of TextExtractionService. -/
structure ServiceConfig where
  ocr_cache : Bool
  model : String
  strategy : String
  storage_profile : String
deriving Repr, DecidableEq

/-- The class-level _PROMPT constant (the fixed Spanish extraction
instructions, lines 21-84 of text_extraction_service.py). Its exact text is
irrelevant to every claim; what matters is that it is one fixed string, so it
is abbreviated here to its opening words. -/
def fixed_PROMPT : String :=
  "Usted es un especialista en el aprendizaje de idiomas encargado de extraer y analizar el contenido de la pagina de un libro de texto."

/-- The form-data payload _upload_file builds (excluding the file part):
the four configuration fields, plus storage_filename when truthy, plus a
prompt field when the prompt argument is truthy. A field value of none means
the key is absent from the dict. -/
structure UploadPayload where
  ocr_cache : Bool
  model : String
  strategy : String
  storage_profile : String
  storage_filename : Option String
  prompt : Option String
deriving Repr, DecidableEq

/-- Lines 230-241 of text_extraction_service.py: the data dict of
_upload_file. Note that when the prompt argument is truthy the code sets
`data[prompt] = self._PROMPT`, i.e. the class constant, not the argument. -/
def upload_payload (cfg : ServiceConfig) (prompt : Option String)
    (storage_filename : Option String) : UploadPayload :=
  { ocr_cache := cfg.ocr_cache, model := cfg.model, strategy := cfg.strategy,
    storage_profile := cfg.storage_profile,
    storage_filename := if pyTruthy storage_filename then storage_filename else none,
    prompt := if pyTruthy prompt then some fixed_PROMPT else none }

/-- The JSON payload _request_file builds: the same fields as the upload
payload plus the base64 file content. -/
structure RequestPayload where
  ocr_cache : Bool
  model : String
  strategy : String
  storage_profile : String
  file : String
  storage_filename : Option String
  prompt : Option String
deriving Repr, DecidableEq

/-- Lines 261-272 of text_extraction_service.py: the data dict of
_request_file; the prompt field is again the class constant when the prompt
argument is truthy. -/
def request_payload (cfg : ServiceConfig) (file_content : String)
    (prompt : Option String) (storage_filename : Option String) : RequestPayload :=
  { ocr_cache := cfg.ocr_cache, model := cfg.model, strategy := cfg.strategy,
    storage_profile := cfg.storage_profile, file := file_content,
    storage_filename := if pyTruthy storage_filename then storage_filename else none,
    prompt := if pyTruthy prompt then some fixed_PROMPT else none }

/-! ## Parsing orchestrator (pdf_parser.py) -/

/-- The observable state of one parse_pdf run: the database plus the pages
for which extract_text has been invoked, in call order. -/
structure RunState where
  db : DB
  extracted : List Nat
deriving Repr, DecidableEq

/-- The page loop of PDFParser.parse_pdf over an already sorted key list:
skip a page the store already has; otherwise call extract_text, raise a
LanguageLearningMethodException naming the page when the result carries a
truthy error, store the page when the text is truthy, and silently skip it
otherwise. The second component is the raised message, none when the loop
completed. -/
def parse_pdf_go (extract : Nat → ExtractionResult) (book_name : String) (now : Nat) :
    List Nat → RunState → RunState × Option String
  | [], s => (s, none)
  | page_num :: rest, s =>
    if is_page_parsed s.db book_name page_num then
      parse_pdf_go extract book_name now rest s
    else
      let result := extract page_num
      let s1 : RunState := ⟨s.db, s.extracted ++ [page_num]⟩
      if pyTruthy result.error then
        (s1, some ("Error extracting text from page " ++ toString page_num ++ ": "
          ++ result.error.getD ""))
      else if pyTruthy result.extracted_text then
        let pg : ParsedPage := ⟨book_name, page_num, result.extracted_text.getD "", now,
          result.task_id⟩
        parse_pdf_go extract book_name now rest ⟨(store_parsed_page s1.db pg).1, s1.extracted⟩
      else
        parse_pdf_go extract book_name now rest s1

/-- PDFParser.parse_pdf: iterate over sorted(pages.keys()) — the keys of the
splitter output are distinct page numbers — running the per-page loop from an
empty call trace. The extraction client is an oracle from page number to the
ExtractionResult of extract_text on that page artifact; now is the abstract
clock used for parsed_at. -/
def parse_pdf (extract : Nat → ExtractionResult) (book_name : String) (now : Nat)
    (page_keys : List Nat) (db : DB) : RunState × Option String :=
  parse_pdf_go extract book_name now (List.insertionSort (· ≤ ·) page_keys) ⟨db, []⟩

/-- Folding store_parsed_page over a list of pages, used to state the upsert
invariant of claim C3. -/
def store_pages (pgs : List ParsedPage) (db : DB) : DB :=
  pgs.foldl (fun d pg => (store_parsed_page d pg).1) db

/-- The uniqueness invariant of the parsed_pages table: at most one row per
(book_path, page_number) key. -/
def at_most_one_per_key (db : DB) : Prop :=
  ∀ b p, db.parsed_pages.countP (pageKeyMatch b p) ≤ 1

/-- The store operations a parse_pdf run performs for the pages of l whose
extraction yields truthy text; used to describe the database left behind by
the page loop. -/
def run_stores (extract : Nat → ExtractionResult) (book_name : String) (now : Nat) :
    List Nat → DB → DB
  | [], db => db
  | p :: rest, db =>
    run_stores extract book_name now rest
      (if pyTruthy (extract p).extracted_text then
        (store_parsed_page db ⟨book_name, p, (extract p).extracted_text.getD "", now,
          (extract p).task_id⟩).1
      else db)

/-! ## Generic list lemmas -/

/-- find? is unchanged by a filter whose predicate is implied by the search
predicate. -/
theorem find?_filter_of_imp {α : Type} (l : List α) (p q : α → Bool)
    (h : ∀ a, p a = true → q a = true) :
    (l.filter q).find? p = l.find? p := by
  induction l with
  | nil => rfl
  | cons a t ih =>
    by_cases hq : q a = true
    · rw [List.filter_cons_of_pos hq]
      by_cases hp : p a = true
      · rw [List.find?_cons_of_pos _ hp, List.find?_cons_of_pos _ hp]
      · rw [List.find?_cons_of_neg _ hp, List.find?_cons_of_neg _ hp, ih]
    · rw [List.filter_cons_of_neg hq, List.find?_cons_of_neg _ (fun hp => hq (h a hp)), ih]

/-- Filtering with a predicate and then with its negation leaves nothing. -/
theorem filter_not_filter {α : Type} (l : List α) (q : α → Bool) :
    (l.filter (fun a => !(q a))).filter q = [] := by
  induction l with
  | nil => rfl
  | cons a t ih =>
    by_cases hq : q a = true
    · rw [List.filter_cons_of_neg (by simp [hq])]
      exact ih
    · rw [List.filter_cons_of_pos (by simp [hq]), List.filter_cons_of_neg hq]
      exact ih

/-- countP is unchanged by a filter whose predicate is implied by the counted
predicate. -/
theorem countP_filter_of_imp {α : Type} (l : List α) (p q : α → Bool)
    (h : ∀ a, p a = true → q a = true) :
    (l.filter q).countP p = l.countP p := by
  rw [List.countP_filter]
  refine List.countP_congr fun a _ => ?_
  by_cases hp : p a = true
  · simp [hp, h a hp]
  · simp [hp]

/-! ## Store lemmas -/

/-- A row matches its own key. -/
theorem pageKeyMatch_self (pg : ParsedPage) :
    pageKeyMatch pg.book_path pg.page_number pg = true := by
  simp [pageKeyMatch]

/-- Effect of one store on the idempotency check: the stored key reads as
parsed, every other key is unchanged. -/
theorem is_page_parsed_store_iff (db : DB) (pg : ParsedPage) (b : String) (p : Nat) :
    is_page_parsed (store_parsed_page db pg).1 b p = true ↔
      (pageKeyMatch b p pg = true ∨ is_page_parsed db b p = true) := by
  by_cases hT : pageKeyMatch b p pg = true
  · obtain ⟨hb, hp⟩ : pg.book_path = b ∧ pg.page_number = p := by
      simpa [pageKeyMatch] using hT
    subst hb; subst hp
    simp [is_page_parsed, store_parsed_page, List.countP_append, List.countP_cons,
      pageKeyMatch_self]
  · have himp : ∀ r : ParsedPage, pageKeyMatch b p r = true →
        (!(pageKeyMatch pg.book_path pg.page_number r)) = true := by
      intro r hr
      obtain ⟨h1, h2⟩ : r.book_path = b ∧ r.page_number = p := by
        simpa [pageKeyMatch] using hr
      simp only [pageKeyMatch, Bool.not_eq_true']
      by_contra hcon
      simp only [Bool.not_eq_false, Bool.and_eq_true, beq_iff_eq] at hcon
      exact hT (by simp [pageKeyMatch, ← hcon.1, ← hcon.2, h1, h2])
    simp only [is_page_parsed, store_parsed_page, List.countP_append, List.countP_cons,
      List.countP_nil, hT, if_false]
    rw [countP_filter_of_imp _ _ _ himp]
    simp [is_page_parsed, hT]

/-- One store keeps the at-most-one-row-per-key invariant. -/
theorem at_most_one_per_key_store (db : DB) (pg : ParsedPage)
    (h : at_most_one_per_key db) :
    at_most_one_per_key (store_parsed_page db pg).1 := by
  intro b p
  simp only [store_parsed_page, List.countP_append, List.countP_cons, List.countP_nil]
  by_cases hT : pageKeyMatch b p pg = true
  · obtain ⟨hb, hp⟩ : pg.book_path = b ∧ pg.page_number = p := by
      simpa [pageKeyMatch] using hT
    subst hb; subst hp
    have h0 : (db.parsed_pages.filter
        (fun r => !(pageKeyMatch pg.book_path pg.page_number r))).countP
          (pageKeyMatch pg.book_path pg.page_number) = 0 := by
      rw [List.countP_eq_zero]
      intro a ha
      have := (List.mem_filter.mp ha).2
      simp only [Bool.not_eq_true'] at this
      simp [this]
    simp [h0, hT]
  · have hle : (db.parsed_pages.filter
        (fun r => !(pageKeyMatch pg.book_path pg.page_number r))).countP
          (pageKeyMatch b p) ≤ 1 := by
      refine le_trans ?_ (h b p)
      rw [List.countP_filter]
      exact List.countP_mono_left (fun a _ ha => ((Bool.and_eq_true _ _).mp ha).1)
    simp [hT, hle]

/-- store_pages keeps the invariant. -/
theorem at_most_one_per_key_store_pages (pgs : List ParsedPage) (db : DB)
    (h : at_most_one_per_key db) : at_most_one_per_key (store_pages pgs db) := by
  induction pgs generalizing db with
  | nil => exact h
  | cons pg rest ih => exact ih _ (at_most_one_per_key_store db pg h)

/-! ## Claim C3 -/

/-- Claim C3: after any sequence of store_parsed_page calls starting from the
fresh database there is at most one parsed_pages row per (book, page) key;
storing a page twice for the same key leaves exactly one row for that key,
holding the second content; and store_parsed_page returns the success boolean
(True in this error-free model) rather than raising on a constraint
violation. -/
theorem C3_upsert_invariant :
    (∀ pgs : List ParsedPage, at_most_one_per_key (store_pages pgs init_db)) ∧
    (∀ (db : DB) (pg1 pg2 : ParsedPage), pg1.book_path = pg2.book_path →
      pg1.page_number = pg2.page_number →
      ((store_parsed_page (store_parsed_page db pg1).1 pg2).1.parsed_pages.filter
        (pageKeyMatch pg2.book_path pg2.page_number)) = [pg2]) ∧
    (∀ (db : DB) (pg : ParsedPage), (store_parsed_page db pg).2 = true) := by
  refine ⟨?_, ?_, ?_⟩
  · intro pgs
    refine at_most_one_per_key_store_pages pgs init_db ?_
    intro b p
    simp [init_db]
  · intro db pg1 pg2 _ _
    simp only [store_parsed_page, List.filter_append]
    rw [filter_not_filter]
    simp [pageKeyMatch_self]
  · intro db pg
    rfl

/-- Witness for C3 at a concrete store sequence for key (b, 3). -/
theorem C3_upsert_invariant_witness :
    at_most_one_per_key (store_pages [⟨"b", 3, "one", 0, none⟩] init_db) ∧
    ((store_parsed_page (store_parsed_page init_db ⟨"b", 3, "one", 0, none⟩).1
        ⟨"b", 3, "two", 1, none⟩).1.parsed_pages.filter (pageKeyMatch "b" 3))
      = [⟨"b", 3, "two", 1, none⟩] ∧
    (store_parsed_page init_db ⟨"b", 3, "one", 0, none⟩).2 = true :=
  ⟨C3_upsert_invariant.1 _,
   C3_upsert_invariant.2.1 init_db ⟨"b", 3, "one", 0, none⟩ ⟨"b", 3, "two", 1, none⟩ rfl rfl,
   C3_upsert_invariant.2.2 init_db ⟨"b", 3, "one", 0, none⟩⟩

/-! ## Claim C8 -/

/-- Claim C8: delete_book_and_connected_data removes exactly the book rows
with the given name and the parsed-page rows for that name; lookups for every
other book are unchanged, and the exercises and exercise_questions tables are
untouched, so every exercise query is unchanged for all books. -/
theorem C8_deletion_frame (db : DB) (book_name : String) :
    (get_book (delete_book_and_connected_data db book_name) book_name = none) ∧
    (∀ p, is_page_parsed (delete_book_and_connected_data db book_name) book_name p
      = false) ∧
    (∀ m, m ≠ book_name →
      get_book (delete_book_and_connected_data db book_name) m = get_book db m) ∧
    (∀ m p, m ≠ book_name →
      get_parsed_page (delete_book_and_connected_data db book_name) m p
          = get_parsed_page db m p ∧
        is_page_parsed (delete_book_and_connected_data db book_name) m p
          = is_page_parsed db m p) ∧
    (∀ b pn, get_exercises (delete_book_and_connected_data db book_name) b pn
      = get_exercises db b pn) ∧
    (delete_book_and_connected_data db book_name).exercises = db.exercises ∧
    (delete_book_and_connected_data db book_name).exercise_questions
      = db.exercise_questions := by
  refine ⟨?_, ?_, ?_, ?_, ?_, rfl, rfl⟩
  · rw [get_book, List.find?_eq_none]
    intro x hx
    have := (List.mem_filter.mp hx).2
    simp only [Bool.not_eq_true'] at this
    simp [this]
  · intro p
    have h0 : ((delete_book_and_connected_data db book_name).parsed_pages).countP
        (pageKeyMatch book_name p) = 0 := by
      rw [List.countP_eq_zero]
      intro a ha
      have := (List.mem_filter.mp ha).2
      simp only [Bool.not_eq_true'] at this
      simp [pageKeyMatch, this]
    simp [is_page_parsed, h0]
  · intro m hm
    refine find?_filter_of_imp _ _ _ ?_
    intro a ha
    have : a.name = m := by simpa using ha
    simp [this, hm]
  · intro m p hm
    constructor
    · refine find?_filter_of_imp _ _ _ ?_
      intro a ha
      have : a.book_path = m := by
        have := (by simpa [pageKeyMatch] using ha : a.book_path = m ∧ a.page_number = p)
        exact this.1
      simp [this, hm]
    · have himp : ∀ a : ParsedPage, pageKeyMatch m p a = true →
          (!(a.book_path == book_name)) = true := by
        intro a ha
        have h1 : a.book_path = m := by
          have := (by simpa [pageKeyMatch] using ha : a.book_path = m ∧ a.page_number = p)
          exact this.1
        simp [h1, hm]
      have hc := countP_filter_of_imp db.parsed_pages (pageKeyMatch m p)
        (fun r => !(r.book_path == book_name)) himp
      simp only [is_page_parsed, delete_book_and_connected_data]
      exact congrArg (fun n => decide (n > 0)) hc
  · intro b pn
    rfl

/-- Witness for C8: a database holding two books, their pages and an
exercise, with book b deleted. -/
theorem C8_deletion_frame_witness :
    get_book (delete_book_and_connected_data
      ⟨[⟨"a", 1, "pa", 0, none⟩, ⟨"b", 1, "pb", 0, none⟩],
       [⟨1, "b", 1, "t", "i", 0⟩], [⟨1, 1, "q", 0⟩],
       [⟨1, "a", "aa", 0⟩, ⟨2, "b", "bb", 0⟩], 2, 2, 3⟩ "b") "a"
      = get_book
      ⟨[⟨"a", 1, "pa", 0, none⟩, ⟨"b", 1, "pb", 0, none⟩],
       [⟨1, "b", 1, "t", "i", 0⟩], [⟨1, 1, "q", 0⟩],
       [⟨1, "a", "aa", 0⟩, ⟨2, "b", "bb", 0⟩], 2, 2, 3⟩ "a" ∧
    (delete_book_and_connected_data
      ⟨[⟨"a", 1, "pa", 0, none⟩, ⟨"b", 1, "pb", 0, none⟩],
       [⟨1, "b", 1, "t", "i", 0⟩], [⟨1, 1, "q", 0⟩],
       [⟨1, "a", "aa", 0⟩, ⟨2, "b", "bb", 0⟩], 2, 2, 3⟩ "b").exercises
      = [⟨1, "b", 1, "t", "i", 0⟩] :=
  ⟨(C8_deletion_frame _ "b").2.2.1 "a" (by decide),
   (C8_deletion_frame _ "b").2.2.2.2.2.1⟩

/-! ## Question-row lemmas -/

/-- The questions of the inserted rows, in insertion order, are the input
questions. -/
theorem question_rows_map_question (ex qid : Nat) (qs : List String) : ∀ i,
    (question_rows ex qid i qs).map (fun r => r.question) = qs := by
  induction qs with
  | nil => intro i; rfl
  | cons q rest ih => intro i; simp [question_rows, ih (i + 1)]

/-- Every inserted question row belongs to the inserted exercise. -/
theorem question_rows_exercise_id (ex qid : Nat) (qs : List String) : ∀ i,
    ∀ r ∈ question_rows ex qid i qs, r.exercise_id = ex := by
  induction qs with
  | nil => intro i r hr; simp [question_rows] at hr
  | cons q rest ih =>
    intro i r hr
    rw [question_rows, List.mem_cons] at hr
    rcases hr with hr | hr
    · subst hr; rfl
    · exact ih (i + 1) r hr

/-- Inserted question rows carry order indices at least the running index. -/
theorem question_rows_order_ge (ex qid : Nat) (qs : List String) : ∀ i,
    ∀ r ∈ question_rows ex qid i qs, i ≤ r.question_order := by
  induction qs with
  | nil => intro i r hr; simp [question_rows] at hr
  | cons q rest ih =>
    intro i r hr
    rw [question_rows, List.mem_cons] at hr
    rcases hr with hr | hr
    · subst hr; exact le_refl i
    · exact le_trans (Nat.le_succ i) (ih (i + 1) r hr)

/-- The inserted question rows are already sorted by their order index. -/
theorem question_rows_sorted (ex qid : Nat) (qs : List String) : ∀ i,
    List.Sorted (fun q1 q2 : QuestionRow => q1.question_order ≤ q2.question_order)
      (question_rows ex qid i qs) := by
  induction qs with
  | nil => intro i; exact List.sorted_nil
  | cons q rest ih =>
    intro i
    rw [question_rows, List.sorted_cons]
    refine ⟨?_, ih (i + 1)⟩
    intro b hb
    exact le_trans (Nat.le_succ i) (question_rows_order_ge ex qid rest (i + 1) b hb)

/-- The (question, question_order) pairs of the inserted rows are exactly the
enumerate pairs of the input list: each question is tagged with its 0-based
position. -/
theorem question_rows_pairs (ex qid : Nat) (qs : List String) : ∀ i,
    (question_rows ex qid i qs).map (fun r => (r.question, r.question_order))
      = (List.enumFrom i qs).map (fun iq => (iq.2, iq.1)) := by
  induction qs with
  | nil => intro i; rfl
  | cons q rest ih => intro i; simp [question_rows, List.enumFrom, ih (i + 1)]

/-! ## Claim C4 -/

/-- Claim C4: storing an exercise with an arbitrary ordered question list and
reading it back through get_exercises yields the same questions in the same
order; each question is persisted with its 0-based order index and retrieval
re-sorts by that stored index. The hypothesis states the database invariant
that existing question rows reference already-assigned exercise ids. -/
theorem C4_question_order_round_trip (db : DB) (e : StoredExercise)
    (hwf : ∀ q ∈ db.exercise_questions, q.exercise_id < db.next_exercise_id) :
    (get_exercises (store_exercise db e).1 e.book_path (some e.page_number)).getLast?
      = some ⟨some (store_exercise db e).2, e.book_path, e.page_number, e.title,
          e.instructions, e.questions, e.extracted_at⟩ := by
  have hq : questions_for (store_exercise db e).1 db.next_exercise_id = e.questions := by
    unfold questions_for
    have hfilter : ((store_exercise db e).1.exercise_questions.filter
        (fun q => q.exercise_id == db.next_exercise_id))
        = question_rows db.next_exercise_id db.next_question_id 0 e.questions := by
      show ((db.exercise_questions
          ++ question_rows db.next_exercise_id db.next_question_id 0 e.questions).filter
          (fun q => q.exercise_id == db.next_exercise_id)) = _
      rw [List.filter_append]
      have h1 : (db.exercise_questions.filter
          (fun q => q.exercise_id == db.next_exercise_id)) = [] := by
        rw [List.filter_eq_nil]
        intro a ha
        have := hwf a ha
        simp only [beq_iff_eq]
        omega
      have h2 : ((question_rows db.next_exercise_id db.next_question_id 0
          e.questions).filter (fun q => q.exercise_id == db.next_exercise_id))
          = question_rows db.next_exercise_id db.next_question_id 0 e.questions := by
        rw [List.filter_eq_self]
        intro a ha
        simp [question_rows_exercise_id db.next_exercise_id db.next_question_id
          e.questions 0 a ha]
      rw [h1, h2, List.nil_append]
    rw [hfilter,
      List.Sorted.insertionSort_eq
        (question_rows_sorted db.next_exercise_id db.next_question_id e.questions 0),
      question_rows_map_question]
  show ((((store_exercise db e).1.exercises).filter
      (exercise_filter e.book_path (some e.page_number))).map _).getLast? = _
  have hrow : (((store_exercise db e).1.exercises).filter
      (exercise_filter e.book_path (some e.page_number)))
      = db.exercises.filter (exercise_filter e.book_path (some e.page_number))
        ++ [⟨db.next_exercise_id, e.book_path, e.page_number, e.title, e.instructions,
            e.extracted_at⟩] := by
    show ((db.exercises ++ [_]).filter _) = _
    rw [List.filter_append]
    congr 1
    rw [List.filter_eq_self]
    intro a ha
    rw [List.mem_singleton] at ha
    subst ha
    simp [exercise_filter]
  rw [hrow, List.map_append]
  simp only [List.map_cons, List.map_nil]
  rw [List.getLast?_concat]
  exact congrArg some (by rw [hq]; rfl)

/-- Witness for C4: a three-question exercise stored into the fresh database
and read back in order. -/
theorem C4_question_order_round_trip_witness :
    (get_exercises
        (store_exercise init_db ⟨none, "b", 3, "t", "i", ["Q1", "Q2", "Q3"], 0⟩).1
        "b" (some 3)).getLast?
      = some ⟨some (store_exercise init_db
            ⟨none, "b", 3, "t", "i", ["Q1", "Q2", "Q3"], 0⟩).2,
          "b", 3, "t", "i", ["Q1", "Q2", "Q3"], 0⟩ :=
  C4_question_order_round_trip init_db ⟨none, "b", 3, "t", "i", ["Q1", "Q2", "Q3"], 0⟩
    (by intro q hq; simp [init_db] at hq)

/-! ## Claim C7 -/

/-- Claim C7 (amended): store_exercise inserts the exercise row and then one
question row per question, tagged with its 0-based order index, within one
connection scope, and returns the identifier assigned by the insert; however
the code performs no check on that identifier: the repository defines no
PersistenceError and store_exercise contains no raise, so when the cursor
reports no identifier the function returns the absent identifier normally
instead of failing. -/
theorem C7_store_exercise_contract (db : DB) (e : StoredExercise) :
    ((store_exercise db e).2 = db.next_exercise_id) ∧
    ((store_exercise db e).1.exercises
      = db.exercises ++ [⟨db.next_exercise_id, e.book_path, e.page_number, e.title,
          e.instructions, e.extracted_at⟩]) ∧
    ((store_exercise db e).1.exercise_questions
      = db.exercise_questions
        ++ question_rows db.next_exercise_id db.next_question_id 0 e.questions) ∧
    ((question_rows db.next_exercise_id db.next_question_id 0 e.questions).map
        (fun r => (r.question, r.question_order))
      = e.questions.enum.map (fun iq => (iq.2, iq.1))) ∧
    (∀ r ∈ question_rows db.next_exercise_id db.next_question_id 0 e.questions,
      r.exercise_id = db.next_exercise_id) ∧
    (∀ lastrowid : Option Nat,
      store_exercise_outcome lastrowid = .returned lastrowid ∧
      (store_exercise_outcome lastrowid).isRaised = false) :=
  ⟨rfl, rfl, rfl,
   question_rows_pairs db.next_exercise_id db.next_question_id e.questions 0,
   question_rows_exercise_id db.next_exercise_id db.next_question_id e.questions 0,
   fun _ => ⟨rfl, rfl⟩⟩

/-- Witness for C7 at a concrete exercise with two questions. -/
theorem C7_store_exercise_contract_witness :
    (store_exercise init_db ⟨none, "b", 1, "t", "i", ["Q1", "Q2"], 0⟩).2 = 1 ∧
    (question_rows 1 1 0 ["Q1", "Q2"]).map (fun r => (r.question, r.question_order))
      = [("Q1", 0), ("Q2", 1)] ∧
    (⟨1, 1, "Q1", 0⟩ : QuestionRow).exercise_id = 1 :=
  ⟨(C7_store_exercise_contract init_db ⟨none, "b", 1, "t", "i", ["Q1", "Q2"], 0⟩).1,
   (C7_store_exercise_contract init_db ⟨none, "b", 1, "t", "i", ["Q1", "Q2"], 0⟩).2.2.2.1,
   (C7_store_exercise_contract init_db
      ⟨none, "b", 1, "t", "i", ["Q1", "Q2"], 0⟩).2.2.2.2.1 ⟨1, 1, "Q1", 0⟩ (by decide)⟩

/-- Counterexample to C7 as stated: an insert reporting no identifier makes
store_exercise return that absent identifier normally; nothing is raised, so
no PersistenceError failure occurs. -/
theorem C7_no_persistence_error_counterexample :
    store_exercise_outcome none = .returned none ∧
    (store_exercise_outcome none).isRaised = false :=
  ⟨rfl, rfl⟩

/-! ## Claim C10 -/

/-- Claim C10 (amended): whenever the prompt argument is truthy (neither None
nor empty), the prompt field sent to the service in both the upload and the
request payload is the fixed class constant, regardless of the value of the
argument; when the prompt argument is None, or falsy in general, no prompt
field is sent at all. -/
theorem C10_prompt_constant (cfg : ServiceConfig) (prompt : Option String)
    (storage_filename : Option String) (file_content : String) :
    (pyTruthy prompt = true →
      (upload_payload cfg prompt storage_filename).prompt = some fixed_PROMPT ∧
      (request_payload cfg file_content prompt storage_filename).prompt
        = some fixed_PROMPT) ∧
    (prompt = none →
      (upload_payload cfg prompt storage_filename).prompt = none ∧
      (request_payload cfg file_content prompt storage_filename).prompt = none) ∧
    (pyTruthy prompt = false →
      (upload_payload cfg prompt storage_filename).prompt = none ∧
      (request_payload cfg file_content prompt storage_filename).prompt = none) := by
  refine ⟨fun h => ?_, fun h => ?_, fun h => ?_⟩
  · simp [upload_payload, request_payload, h]
  · subst h
    simp [upload_payload, request_payload, pyTruthy]
  · simp [upload_payload, request_payload, h]

/-- Witness for C10: a custom prompt is replaced by the class constant, and a
None prompt sends no field. -/
theorem C10_prompt_constant_witness :
    (upload_payload ⟨true, "llama3.1", "llama_vision", "default"⟩
      (some "my custom prompt") none).prompt = some fixed_PROMPT ∧
    (upload_payload ⟨true, "llama3.1", "llama_vision", "default"⟩ none none).prompt
      = none :=
  ⟨((C10_prompt_constant ⟨true, "llama3.1", "llama_vision", "default"⟩
      (some "my custom prompt") none "f").1 (by decide)).1,
   ((C10_prompt_constant ⟨true, "llama3.1", "llama_vision", "default"⟩
      none none "f").2.1 rfl).1⟩

/-- Counterexample to C10 as stated: the empty string is a non-None prompt
argument, yet the payload carries no prompt field at all. -/
theorem C10_empty_prompt_counterexample :
    (upload_payload ⟨true, "llama3.1", "llama_vision", "default"⟩ (some "") none).prompt
      = none ∧ (some "" : Option String) ≠ none :=
  ⟨rfl, by decide⟩

/-! ## Extraction client lemmas -/

/-- Every completed or suspended _process_single_file body performs exactly
one upload attempt. -/
theorem process_after_prompt_upload_calls (w : World) (file_path : String)
    (storage_filename : Option String) :
    (process_after_prompt w file_path storage_filename).upload_calls = 1 := by
  unfold process_after_prompt
  cases upload_file w.upload with
  | none =>
    cases request_file w.request with
    | none => rfl
    | some res =>
      by_cases ht : pyTruthy res.text = true
      · simp [ht]
      · by_cases hid : pyTruthy res.task_id = true
        · cases get_result w.polls <;> simp [ht, hid]
        · simp [ht, hid]
  | some res =>
    by_cases ht : pyTruthy res.text = true
    · simp [ht]
    · by_cases hid : pyTruthy res.task_id = true
      · cases get_result w.polls <;> simp [ht, hid]
      · simp [ht, hid]

/-- When the upload attempt failed, the body performs exactly one request
attempt. -/
theorem process_after_prompt_request_calls (w : World) (file_path : String)
    (storage_filename : Option String) (h : upload_file w.upload = none) :
    (process_after_prompt w file_path storage_filename).request_calls = 1 := by
  unfold process_after_prompt
  rw [h]
  cases request_file w.request with
  | none => rfl
  | some res =>
    by_cases ht : pyTruthy res.text = true
    · simp [ht]
    · by_cases hid : pyTruthy res.task_id = true
      · cases get_result w.polls <;> simp [ht, hid]
      · simp [ht, hid]

/-- When both transport paths failed, the body returns the hard error
result. -/
theorem process_after_prompt_both_failed (w : World) (file_path : String)
    (storage_filename : Option String) (h1 : upload_file w.upload = none)
    (h2 : request_file w.request = none) :
    process_after_prompt w file_path storage_filename
      = ⟨some (some ⟨file_path, none,
          some "Failed to process file using both upload and request methods", none⟩),
         1, 1⟩ := by
  unfold process_after_prompt
  rw [h1, h2]

/-! ## Claim C6 -/

/-- Claim C6: whenever the upload attempt fails — a non-success HTTP status
or any transport exception — _process_single_file attempts the inline base64
request path (exactly one request attempt is made); only when the request
path also fails does it return a result with the error field set and no
extracted text, and each path is attempted exactly once within the call, so
no further retries happen. -/
theorem C6_fallback_protocol (w : World) (file_path : String) (prompt : Option String)
    (storage_filename : Option String)
    (hup : match w.upload with
           | .exn _ => True
           | .resp status_code _ => status_code ≠ 200) :
    (process_single_file w file_path prompt none storage_filename).request_calls = 1 ∧
    (process_single_file w file_path prompt none storage_filename).upload_calls = 1 ∧
    ((match w.request with
      | .exn _ => True
      | .resp status_code _ => status_code ≠ 200) →
      process_single_file w file_path prompt none storage_filename
        = ⟨some (some ⟨file_path, none,
            some "Failed to process file using both upload and request methods", none⟩),
           1, 1⟩) := by
  have hupload : upload_file w.upload = none := by
    revert hup
    cases w.upload with
    | exn m => intro _; rfl
    | resp s b =>
      intro hs
      simp [upload_file, hs]
  have hps : process_single_file w file_path prompt none storage_filename
      = process_after_prompt w file_path storage_filename := by
    unfold process_single_file
    simp [pyTruthy]
  refine ⟨?_, ?_, ?_⟩
  · rw [hps]
    exact process_after_prompt_request_calls w file_path storage_filename hupload
  · rw [hps]
    exact process_after_prompt_upload_calls w file_path storage_filename
  · intro hreq
    have hrequest : request_file w.request = none := by
      revert hreq
      cases w.request with
      | exn m => intro _; rfl
      | resp s b =>
        intro hs
        simp [request_file, hs]
    rw [hps]
    exact process_after_prompt_both_failed w file_path storage_filename hupload hrequest

/-- Witness for C6: the upload endpoint answers 500 and the request endpoint
raises a connection error; one fallback attempt is made and the hard error
result is returned. -/
theorem C6_fallback_protocol_witness :
    (process_single_file ⟨.resp 500 ⟨none, none⟩, .exn "connection refused", [], none⟩
      "page_0.pdf" none none none).request_calls = 1 ∧
    process_single_file ⟨.resp 500 ⟨none, none⟩, .exn "connection refused", [], none⟩
      "page_0.pdf" none none none
      = ⟨some (some ⟨"page_0.pdf", none,
          some "Failed to process file using both upload and request methods", none⟩),
         1, 1⟩ :=
  ⟨(C6_fallback_protocol ⟨.resp 500 ⟨none, none⟩, .exn "connection refused", [], none⟩
      "page_0.pdf" none none (by decide)).1,
   (C6_fallback_protocol ⟨.resp 500 ⟨none, none⟩, .exn "connection refused", [], none⟩
      "page_0.pdf" none none (by decide)).2.2 trivial⟩

/-! ## Claim C5 -/

/-- Claim C5, evaluated at its failing input: the upload succeeds and returns
task id t1, and the single poll reports state FAILURE with HTTP 200. The code
logs the failure inside _get_result but returns None, and
_process_single_file wraps that None into an ExtractionResult whose error
field is None and whose extracted_text is None — so the result carries
neither text nor an error string, refuting the claim that on FAILURE the
error string is set. -/
theorem C5_failure_state_unreported :
    process_single_file
      ⟨.resp 200 ⟨none, some "t1"⟩, .resp 200 ⟨none, none⟩, [⟨200, "FAILURE", ""⟩], none⟩
      "page_0.pdf" none none none
      = ⟨some (some ⟨"page_0.pdf", none, none, some "t1"⟩), 1, 0⟩ := rfl

/-! ## Claim C9 -/

/-- Claim C9: the extraction call is not total over response shapes. First,
if a successful upload (or fallback request) response has neither a truthy
text field nor a truthy task_id field, _process_single_file falls through
every branch and returns Python None. Second, whenever the polling loop
returns None — which is exactly what _get_result does on a non-200 poll
status or on task state FAILURE — the returned ExtractionResult has
extracted_text unset and error unset. Third, the orchestrator treats such a
result like an empty-text success: the page loop neither raises nor persists
a row for that page. -/
theorem C9_silent_none_paths :
    (∀ (w : World) (file_path : String) (storage_filename : Option String)
        (res : OcrResponse),
      (upload_file w.upload = some res ∨
        (upload_file w.upload = none ∧ request_file w.request = some res)) →
      pyTruthy res.text = false → pyTruthy res.task_id = false →
      (process_single_file w file_path none none storage_filename).ret = some none) ∧
    (∀ (w : World) (file_path : String) (storage_filename : Option String)
        (res : OcrResponse),
      (upload_file w.upload = some res ∨
        (upload_file w.upload = none ∧ request_file w.request = some res)) →
      pyTruthy res.text = false → pyTruthy res.task_id = true →
      get_result w.polls = some none →
      (process_single_file w file_path none none storage_filename).ret
        = some (some ⟨file_path, none, none, res.task_id⟩)) ∧
    (∀ (extract : Nat → ExtractionResult) (book_name : String) (now : Nat)
        (k : Nat) (db : DB),
      is_page_parsed db book_name k = false →
      (extract k).error = none → (extract k).extracted_text = none →
      parse_pdf extract book_name now [k] db = (⟨db, [k]⟩, none)) := by
  refine ⟨?_, ?_, ?_⟩
  · intro w file_path storage_filename res hres ht hid
    have hps : process_single_file w file_path none none storage_filename
        = process_after_prompt w file_path storage_filename := by
      unfold process_single_file
      simp [pyTruthy]
    rw [hps]
    unfold process_after_prompt
    rcases hres with h | ⟨h1, h2⟩
    · rw [h]
      simp [ht, hid]
    · rw [h1, h2]
      simp [ht, hid]
  · intro w file_path storage_filename res hres ht hid hpoll
    have hps : process_single_file w file_path none none storage_filename
        = process_after_prompt w file_path storage_filename := by
      unfold process_single_file
      simp [pyTruthy]
    rw [hps]
    unfold process_after_prompt
    rcases hres with h | ⟨h1, h2⟩
    · rw [h]
      simp [ht, hid, hpoll]
    · rw [h1, h2]
      simp [ht, hid, hpoll]
  · intro extract book_name now k db hfresh herr htext
    show parse_pdf_go extract book_name now
      (List.insertionSort (fun a b => a ≤ b) [k]) ⟨db, []⟩ = (⟨db, [k]⟩, none)
    have hsort : List.insertionSort (fun a b : Nat => a ≤ b) [k] = [k] := rfl
    rw [hsort]
    unfold parse_pdf_go
    rw [hfresh]
    simp only [Bool.false_eq_true, if_false, herr, htext, pyTruthy]
    rfl

/-- Witness for C9: an empty successful body makes the call return None; a
non-200 poll yields a result with neither text nor error; the orchestrator
then skips the page silently. -/
theorem C9_silent_none_paths_witness :
    (process_single_file ⟨.resp 200 ⟨none, none⟩, .exn "unused", [], none⟩
      "page_0.pdf" none none none).ret = some none ∧
    (process_single_file ⟨.resp 200 ⟨none, some "t1"⟩, .exn "unused",
      [⟨500, "PENDING", ""⟩], none⟩ "page_0.pdf" none none none).ret
      = some (some ⟨"page_0.pdf", none, none, some "t1"⟩) ∧
    parse_pdf (fun _ => ⟨"page_0.pdf", none, none, some "t1"⟩) "book" 0 [0] init_db
      = (⟨init_db, [0]⟩, none) :=
  ⟨C9_silent_none_paths.1 ⟨.resp 200 ⟨none, none⟩, .exn "unused", [], none⟩
      "page_0.pdf" none ⟨none, none⟩ (Or.inl rfl) rfl rfl,
   C9_silent_none_paths.2.1 ⟨.resp 200 ⟨none, some "t1"⟩, .exn "unused",
      [⟨500, "PENDING", ""⟩], none⟩ "page_0.pdf" none ⟨none, some "t1"⟩
      (Or.inl rfl) rfl rfl rfl,
   C9_silent_none_paths.2.2 (fun _ => ⟨"page_0.pdf", none, none, some "t1"⟩)
      "book" 0 0 init_db rfl rfl rfl⟩

/-! ## Orchestrator lemmas -/

/-- A page loop over pages that are all already stored does nothing: no
extraction call, no state change. -/
theorem parse_pdf_go_all_parsed (extract : Nat → ExtractionResult) (book_name : String)
    (now : Nat) (l : List Nat) (s : RunState)
    (h : ∀ p ∈ l, is_page_parsed s.db book_name p = true) :
    parse_pdf_go extract book_name now l s = (s, none) := by
  induction l with
  | nil => rfl
  | cons p rest ih =>
    unfold parse_pdf_go
    rw [h p (List.mem_cons_self p rest)]
    simp only [if_true]
    exact ih (fun q hq => h q (List.mem_cons_of_mem p hq))

/-- Reading the idempotency check after the stores of a run: a page reads as
parsed exactly when it was stored by the run (member with truthy text) or was
already parsed before. -/
theorem is_page_parsed_run_stores (extract : Nat → ExtractionResult)
    (book_name : String) (now : Nat) (l : List Nat) (db : DB) (q : Nat) :
    is_page_parsed (run_stores extract book_name now l db) book_name q = true ↔
      ((q ∈ l ∧ pyTruthy (extract q).extracted_text = true) ∨
        is_page_parsed db book_name q = true) := by
  induction l generalizing db with
  | nil => simp [run_stores]
  | cons p rest ih =>
    rw [run_stores, ih]
    by_cases hT : pyTruthy (extract p).extracted_text = true
    · rw [if_pos hT, is_page_parsed_store_iff]
      have hkey : pageKeyMatch book_name q
          ⟨book_name, p, (extract p).extracted_text.getD "", now,
            (extract p).task_id⟩ = true ↔ p = q := by
        simp [pageKeyMatch]
      rw [hkey]
      constructor
      · rintro (⟨hq, hTq⟩ | hpq | hdb)
        · exact Or.inl ⟨List.mem_cons_of_mem p hq, hTq⟩
        · refine Or.inl ⟨?_, ?_⟩
          · rw [← hpq]
            exact List.mem_cons_self p rest
          · rw [← hpq]
            exact hT
        · exact Or.inr hdb
      · rintro (⟨hq, hTq⟩ | hdb)
        · rcases List.mem_cons.mp hq with hqp | hqr
          · exact Or.inr (Or.inl hqp.symm)
          · exact Or.inl ⟨hqr, hTq⟩
        · exact Or.inr (Or.inr hdb)
    · rw [if_neg hT]
      constructor
      · rintro (⟨hq, hTq⟩ | hdb)
        · exact Or.inl ⟨List.mem_cons_of_mem p hq, hTq⟩
        · exact Or.inr hdb
      · rintro (⟨hq, hTq⟩ | hdb)
        · rcases List.mem_cons.mp hq with hqp | hqr
          · exact absurd (hqp ▸ hTq) hT
          · exact Or.inl ⟨hqr, hTq⟩
        · exact Or.inr hdb

/-- The page loop on a fresh error-free segment followed by a failing page:
every segment page is extracted (and stored when its text is truthy), the
failing page is extracted, the loop raises the message naming that page, and
nothing beyond it is touched. -/
theorem parse_pdf_go_error_split (extract : Nat → ExtractionResult)
    (book_name : String) (now : Nat) (l2 : List Nat) (k : Nat) :
    ∀ (l1 : List Nat) (s : RunState),
    (∀ p ∈ l1, pyTruthy (extract p).error = false) →
    (∀ p ∈ l1, is_page_parsed s.db book_name p = false) →
    l1.Nodup → k ∉ l1 →
    is_page_parsed s.db book_name k = false →
    pyTruthy (extract k).error = true →
    parse_pdf_go extract book_name now (l1 ++ k :: l2) s
      = (⟨run_stores extract book_name now l1 s.db, s.extracted ++ l1 ++ [k]⟩,
         some ("Error extracting text from page " ++ toString k ++ ": "
           ++ (extract k).error.getD "")) := by
  intro l1
  induction l1 with
  | nil =>
    intro s _ _ _ _ hkf herrk
    simp only [List.nil_append]
    unfold parse_pdf_go
    rw [hkf]
    simp only [Bool.false_eq_true, if_false]
    rw [if_pos herrk, run_stores]
    rw [List.append_nil]
  | cons p rest ih =>
    intro s herr hfresh hnd hkin hkf herrk
    have hp := hfresh p (List.mem_cons_self p rest)
    have herrp := herr p (List.mem_cons_self p rest)
    have hpk : p ≠ k := fun h => hkin (h ▸ List.mem_cons_self p rest)
    have hprest : p ∉ rest := (List.nodup_cons.mp hnd).1
    have hext : ∀ t : List Nat, (s.extracted ++ [p]) ++ t ++ [k]
        = s.extracted ++ (p :: t) ++ [k] := by
      intro t
      rw [List.append_assoc s.extracted [p] t]
      rfl
    simp only [List.cons_append]
    unfold parse_pdf_go
    rw [hp]
    simp only [Bool.false_eq_true, if_false]
    rw [if_neg (by rw [herrp]; exact Bool.false_ne_true)]
    by_cases hT : pyTruthy (extract p).extracted_text = true
    · rw [if_pos hT]
      rw [ih ⟨(store_parsed_page s.db ⟨book_name, p, (extract p).extracted_text.getD "",
            now, (extract p).task_id⟩).1, s.extracted ++ [p]⟩
          (fun q hq => herr q (List.mem_cons_of_mem p hq))
          ?_ (List.nodup_cons.mp hnd).2 (fun h => hkin (List.mem_cons_of_mem p h)) ?_ herrk]
      · rw [run_stores, if_pos hT, hext rest]
      · intro q hq
        rw [Bool.eq_false_iff]
        intro habs
        rcases (is_page_parsed_store_iff _ _ _ _).mp habs with hkey | hold
        · have : p = q := by
            simpa [pageKeyMatch] using hkey
          exact hprest (this ▸ hq)
        · exact absurd hold (by rw [hfresh q (List.mem_cons_of_mem p hq)]; exact
            Bool.false_ne_true)
      · rw [Bool.eq_false_iff]
        intro habs
        rcases (is_page_parsed_store_iff _ _ _ _).mp habs with hkey | hold
        · exact hpk (by simpa [pageKeyMatch] using hkey)
        · exact absurd hold (by rw [hkf]; exact Bool.false_ne_true)
    · rw [if_neg hT]
      rw [ih ⟨s.db, s.extracted ++ [p]⟩
          (fun q hq => herr q (List.mem_cons_of_mem p hq))
          (fun q hq => hfresh q (List.mem_cons_of_mem p hq))
          (List.nodup_cons.mp hnd).2 (fun h => hkin (List.mem_cons_of_mem p h)) hkf herrk]
      rw [run_stores, if_neg hT, hext rest]

/-! ## Claim C1 -/

/-- Claim C1: for a book whose pages are all already stored, running the
parse operation consults the idempotency check for each page before any
extraction, performs zero Extraction Client calls (the extraction trace is
empty), raises nothing, and leaves the stored ParsedPage rows — the whole
database — exactly as they were. -/
theorem C1_idempotent_reparse (extract : Nat → ExtractionResult) (book_name : String)
    (now : Nat) (page_keys : List Nat) (db : DB)
    (h : ∀ p ∈ page_keys, is_page_parsed db book_name p = true) :
    parse_pdf extract book_name now page_keys db = (⟨db, []⟩, none) := by
  unfold parse_pdf
  refine parse_pdf_go_all_parsed extract book_name now _ ⟨db, []⟩ ?_
  intro p hp
  exact h p ((List.mem_insertionSort _).mp hp)

/-- Witness for C1: a two-page book whose pages are both stored; the re-parse
run makes no extraction call and returns the database unchanged. -/
theorem C1_idempotent_reparse_witness :
    parse_pdf (fun _ => ⟨"page.pdf", some "text", none, none⟩) "b" 5 [0, 1]
        (store_pages [⟨"b", 0, "c0", 0, none⟩, ⟨"b", 1, "c1", 0, none⟩] init_db)
      = (⟨store_pages [⟨"b", 0, "c0", 0, none⟩, ⟨"b", 1, "c1", 0, none⟩] init_db, []⟩,
         none) :=
  C1_idempotent_reparse (fun _ => ⟨"page.pdf", some "text", none, none⟩) "b" 5 [0, 1]
    (store_pages [⟨"b", 0, "c0", 0, none⟩, ⟨"b", 1, "c1", 0, none⟩] init_db) (by decide)

/-! ## Claim C2 -/

/-- Claim C2: in a fresh multi-page run where the extraction of page k
reports an error and every earlier page extracts without error, the
orchestrator raises the fatal message identifying page k; every earlier page
whose extraction succeeded with truthy text is persisted, an earlier page
whose extraction succeeded with empty text is not persisted, no page after k
is persisted, and no page after k is extracted (every extracted page is at
most k). -/
theorem C2_fatal_on_extraction_error (extract : Nat → ExtractionResult)
    (book_name : String) (now : Nat) (page_keys : List Nat) (db : DB) (k : Nat)
    (hnd : page_keys.Nodup)
    (hk : k ∈ page_keys)
    (herrk : pyTruthy (extract k).error = true)
    (hpre : ∀ p ∈ page_keys, p < k → pyTruthy (extract p).error = false)
    (hfresh : ∀ p ∈ page_keys, is_page_parsed db book_name p = false) :
    ((parse_pdf extract book_name now page_keys db).2
      = some ("Error extracting text from page " ++ toString k ++ ": "
          ++ (extract k).error.getD "")) ∧
    (∀ p ∈ page_keys, p < k → pyTruthy (extract p).extracted_text = true →
      is_page_parsed (parse_pdf extract book_name now page_keys db).1.db book_name p
        = true) ∧
    (∀ p ∈ page_keys, p < k → pyTruthy (extract p).extracted_text = false →
      is_page_parsed (parse_pdf extract book_name now page_keys db).1.db book_name p
        = false) ∧
    (∀ p ∈ page_keys, k < p →
      is_page_parsed (parse_pdf extract book_name now page_keys db).1.db book_name p
        = false) ∧
    (∀ p ∈ (parse_pdf extract book_name now page_keys db).1.extracted, p ≤ k) := by
  have hmem : ∀ x : Nat, x ∈ List.insertionSort (· ≤ ·) page_keys ↔ x ∈ page_keys :=
    fun x => List.mem_insertionSort _
  have hsorted : List.Sorted (· ≤ ·) (List.insertionSort (· ≤ ·) page_keys) :=
    List.sorted_insertionSort _ page_keys
  have hnd' : (List.insertionSort (· ≤ ·) page_keys).Nodup :=
    (List.perm_insertionSort _ page_keys).nodup_iff.mpr hnd
  obtain ⟨l1, l2, hsplit⟩ := List.append_of_mem ((hmem k).mpr hk)
  rw [hsplit] at hsorted hnd'
  have hcross := (List.pairwise_append.mp hsorted).2.2
  have hk2 := (List.pairwise_append.mp hsorted).2.1
  have hdisj := List.disjoint_of_nodup_append hnd'
  have hkl1 : k ∉ l1 := fun h => hdisj h (List.mem_cons_self k l2)
  have hl1lt : ∀ p ∈ l1, p < k := by
    intro p hp
    refine Nat.lt_of_le_of_ne (hcross p hp k (List.mem_cons_self k l2)) ?_
    intro h
    exact hkl1 (h ▸ hp)
  have hl2gt : ∀ p ∈ l2, k < p := by
    intro p hp
    refine Nat.lt_of_le_of_ne (List.rel_of_sorted_cons hk2 p hp) ?_
    intro h
    have : k ∉ l2 := (List.nodup_cons.mp (hnd'.of_append_right)).1
    exact this (h ▸ hp)
  have hl1mem : ∀ p ∈ l1, p ∈ page_keys := by
    intro p hp
    exact (hmem p).mp (hsplit ▸ List.mem_append.mpr (Or.inl hp))
  have hrun : parse_pdf extract book_name now page_keys db
      = (⟨run_stores extract book_name now l1 db, l1 ++ [k]⟩,
         some ("Error extracting text from page " ++ toString k ++ ": "
           ++ (extract k).error.getD "")) := by
    unfold parse_pdf
    rw [hsplit, parse_pdf_go_error_split extract book_name now l2 k l1 ⟨db, []⟩
      (fun p hp => hpre p (hl1mem p hp) (hl1lt p hp))
      (fun p hp => hfresh p (hl1mem p hp))
      (hnd'.of_append_left) hkl1 (hfresh k hk) herrk]
    simp
  have hmeml1 : ∀ p ∈ page_keys, p < k → p ∈ l1 := by
    intro p hp hlt
    have : p ∈ l1 ++ k :: l2 := hsplit ▸ (hmem p).mpr hp
    rcases List.mem_append.mp this with h | h
    · exact h
    · rcases List.mem_cons.mp h with h | h
      · omega
      · exact absurd (hl2gt p h) (by omega)
  refine ⟨by rw [hrun], ?_, ?_, ?_, ?_⟩
  · intro p hp hlt hT
    rw [hrun]
    exact (is_page_parsed_run_stores _ _ _ _ _ _).mpr
      (Or.inl ⟨hmeml1 p hp hlt, hT⟩)
  · intro p hp hlt hT
    rw [hrun, Bool.eq_false_iff]
    intro habs
    rcases (is_page_parsed_run_stores _ _ _ _ _ _).mp habs with ⟨_, hTq⟩ | hdb
    · rw [hT] at hTq
      exact Bool.false_ne_true hTq
    · rw [hfresh p hp] at hdb
      exact Bool.false_ne_true hdb
  · intro p hp hgt
    rw [hrun, Bool.eq_false_iff]
    intro habs
    rcases (is_page_parsed_run_stores _ _ _ _ _ _).mp habs with ⟨hmm, _⟩ | hdb
    · exact absurd (hl1lt p hmm) (by omega)
    · rw [hfresh p hp] at hdb
      exact Bool.false_ne_true hdb
  · intro p hp
    rw [hrun] at hp
    rcases List.mem_append.mp hp with h | h
    · exact le_of_lt (hl1lt p h)
    · rw [List.mem_singleton] at h
      omega

/-- Witness for C2: a four-page fresh run where page 0 extracts text, page 3
extracts empty text, page 5 reports an error and page 9 is never reached. -/
theorem C2_fatal_on_extraction_error_witness :
    ((parse_pdf
        (fun p => if p = 0 then ⟨"f", some "t0", none, none⟩
          else if p = 3 then ⟨"f", some "", none, none⟩
          else if p = 5 then ⟨"f", none, some "boom", none⟩
          else ⟨"f", some "t9", none, none⟩)
        "b" 7 [9, 0, 5, 3] init_db).2
      = some ("Error extracting text from page " ++ toString 5 ++ ": "
          ++ ((if (5 : Nat) = 0 then (⟨"f", some "t0", none, none⟩ : ExtractionResult)
              else if (5 : Nat) = 3 then ⟨"f", some "", none, none⟩
              else if (5 : Nat) = 5 then ⟨"f", none, some "boom", none⟩
              else ⟨"f", some "t9", none, none⟩).error.getD ""))) ∧
    is_page_parsed (parse_pdf
        (fun p => if p = 0 then ⟨"f", some "t0", none, none⟩
          else if p = 3 then ⟨"f", some "", none, none⟩
          else if p = 5 then ⟨"f", none, some "boom", none⟩
          else ⟨"f", some "t9", none, none⟩)
        "b" 7 [9, 0, 5, 3] init_db).1.db "b" 0 = true ∧
    is_page_parsed (parse_pdf
        (fun p => if p = 0 then ⟨"f", some "t0", none, none⟩
          else if p = 3 then ⟨"f", some "", none, none⟩
          else if p = 5 then ⟨"f", none, some "boom", none⟩
          else ⟨"f", some "t9", none, none⟩)
        "b" 7 [9, 0, 5, 3] init_db).1.db "b" 3 = false ∧
    is_page_parsed (parse_pdf
        (fun p => if p = 0 then ⟨"f", some "t0", none, none⟩
          else if p = 3 then ⟨"f", some "", none, none⟩
          else if p = 5 then ⟨"f", none, some "boom", none⟩
          else ⟨"f", some "t9", none, none⟩)
        "b" 7 [9, 0, 5, 3] init_db).1.db "b" 9 = false :=
  ⟨(C2_fatal_on_extraction_error _ "b" 7 [9, 0, 5, 3] init_db 5 (by decide) (by decide)
      (by decide) (by decide) (by decide)).1,
   (C2_fatal_on_extraction_error _ "b" 7 [9, 0, 5, 3] init_db 5 (by decide) (by decide)
      (by decide) (by decide) (by decide)).2.1 0 (by decide) (by decide) (by decide),
   (C2_fatal_on_extraction_error _ "b" 7 [9, 0, 5, 3] init_db 5 (by decide) (by decide)
      (by decide) (by decide) (by decide)).2.2.1 3 (by decide) (by decide) (by decide),
   (C2_fatal_on_extraction_error _ "b" 7 [9, 0, 5, 3] init_db 5 (by decide) (by decide)
      (by decide) (by decide) (by decide)).2.2.2.1 9 (by decide) (by decide)⟩

end LangLearn
